import Mathlib

deriving instance DecidableEq for Except

/-!
Shallow embedding of the PledgePulse dashboard's data pipeline
(src/data_processing.py and src/app.py).

Conventions of the embedding:

* A pandas cell that may be missing is an `Option`; `none` stands for
  NaN/NaT/None.
* Timestamps are modelled at the granularity the pipeline uses: a calendar
  year (`Int`) and a zero-based month (`Fin 12`).  Days and times are never
  consulted by any aggregation, so they are not carried.
* Raw (pre-coercion) cells distinguish a null value, an unparsable value
  and a parsed value, mirroring `pd.to_datetime(..., errors="coerce")` /
  `pd.to_numeric(..., errors="coerce")`, which map the first two to a
  missing marker.
* A DataFrame is a list of rows together with flags recording which named
  columns exist (with `pd.read_json` on a list of records, a column exists
  iff at least one record carries the key).
* Numeric amounts are rationals; floating-point rounding is idealised away.
  A float quotient that is NaN or infinite (division by zero) is modelled
  as `none`.
-/

namespace PledgePulse

/-- A calendar date at the granularity the pipeline consumes: a year and a
zero-based month (0 = January). -/
structure Date where
  y : Int
  m : Fin 12
deriving DecidableEq, Repr

/-- A date from a year and an in-range month index. -/
def mkDate (y : Int) (m : Nat) (h : m < 12) : Date := ⟨y, ⟨m, h⟩⟩

/-- A raw date cell before coercion: null, unparsable, or a parsed value. -/
inductive DCell where
  | dnull
  | dbad
  | dgood (d : Date)
deriving DecidableEq, Repr

/-- A raw numeric cell before coercion: null, unparsable, or a value. -/
inductive VCell where
  | vnull
  | vbad
  | vgood (q : ℚ)
deriving DecidableEq, Repr

/-- Coercion of a date cell, as `pd.to_datetime(..., errors="coerce")`:
null and unparsable both become the missing marker. -/
def coerceD : DCell → Option Date
  | .dnull => none
  | .dbad => none
  | .dgood d => some d

/-- Coercion of a numeric cell, as `pd.to_numeric(..., errors="coerce")`. -/
def coerceV : VCell → Option ℚ
  | .vnull => none
  | .vbad => none
  | .vgood q => some q

/-- One row of the pledges DataFrame.  Cells of columns that do not exist
in the frame are ignored by the pipeline (it consults the column flags
first). -/
structure PledgeRow where
  pledge_id : Option String
  created : DCell
  starts : DCell
  ended : DCell
  contribution : VCell
deriving DecidableEq, Repr

/-- The pledges DataFrame as produced by `pd.read_json`: column-existence
flags plus rows.  `hasAmount` records whether the pledge source also has a
column literally named `amount`, which would collide with the payments
amount column in the merge. -/
structure PledgesDf where
  hasId : Bool
  hasCreated : Bool
  hasStarts : Bool
  hasEnded : Bool
  hasContrib : Bool
  hasAmount : Bool
  rows : List PledgeRow
deriving DecidableEq, Repr

/-- One row of the payments DataFrame. -/
structure PaymentRow where
  pledge_id : Option String
  date : DCell
  amount : VCell
deriving DecidableEq, Repr

/-- The payments DataFrame: column-existence flags plus rows. -/
structure PaymentsDf where
  hasId : Bool
  hasDate : Bool
  hasAmount : Bool
  rows : List PaymentRow
deriving DecidableEq, Repr

/-- A raw pledge JSON record.  The outer `Option` on each field records
whether the record carries the key at all (`pd.read_json` creates a column
iff at least one record does); `amount_key` records an `amount` key. -/
structure PledgeJson where
  pledge_id : Option (Option String)
  created : Option DCell
  starts : Option DCell
  ended : Option DCell
  contribution : Option VCell
  amount_key : Bool
deriving DecidableEq, Repr

/-- Reading a list of pledge JSON records into a DataFrame, as
`pd.read_json` does for an array of flat records: a column exists iff some
record carries the key, and a record lacking an existing key gets a null
cell. -/
def readPledges (src : List PledgeJson) : PledgesDf where
  hasId := src.any (fun r => r.pledge_id.isSome)
  hasCreated := src.any (fun r => r.created.isSome)
  hasStarts := src.any (fun r => r.starts.isSome)
  hasEnded := src.any (fun r => r.ended.isSome)
  hasContrib := src.any (fun r => r.contribution.isSome)
  hasAmount := src.any (fun r => r.amount_key)
  rows := src.map (fun r =>
    { pledge_id := r.pledge_id.getD none
      created := r.created.getD .dnull
      starts := r.starts.getD .dnull
      ended := r.ended.getD .dnull
      contribution := r.contribution.getD .vnull })

/-- Which of the three recognized pledge date columns was selected. -/
inductive DateField where
  | created
  | starts
  | ended
deriving DecidableEq, Repr

/-- The date-column selection of `load_and_preprocess_data` (lines 19-26 of
src/data_processing.py): `pledge_created_at`, else `pledge_starts_at`, else
`pledge_ended_at`; `none` when no recognized date column exists. -/
def selDateField (p : PledgesDf) : Option DateField :=
  if p.hasCreated then some .created
  else if p.hasStarts then some .starts
  else if p.hasEnded then some .ended
  else none

/-- The cell of a pledge row under the selected date column. -/
def getD : DateField → PledgeRow → DCell
  | .created, r => r.created
  | .starts, r => r.starts
  | .ended, r => r.ended

/-- The distinct failure modes of `load_and_preprocess_data`, mirroring the
spec's taxonomy: `schemaError` is the ValueError of line 26 (no recognized
date column), `dtAccessorError` the AttributeError the `.dt` accessor of
line 32 raises when the selected date column is not datetimelike (a column
containing an unparsable date value is never auto-converted, conversion
being all-or-nothing), `missingColumn` the required-column ValueError /
KeyErrors, and `joinIntegrityError` the ValueError of line 76. -/
inductive LoadErr where
  | schemaError
  | dtAccessorError
  | missingColumn (c : String)
  | joinIntegrityError
deriving DecidableEq, Repr

/-- A cleaned pledge row: rows with a null `pledge_id` dropped, id
normalized to a string, `pledge_date` coerced, `year` derived from it.
The `year` column is created (line 32) from the datetimelike date column,
so it is the date's calendar year, null exactly when the date is null. -/
structure CleanPledge where
  pledge_id : String
  pledge_date : Option Date
  contribution_amount : Option ℚ
  year : Option Int
deriving DecidableEq, Repr

/-- A cleaned payment row: null ids dropped, date and amount coerced. -/
structure CleanPay where
  pledge_id : String
  date : Option Date
  amount : Option ℚ
deriving DecidableEq, Repr

/-- Cleaning of the pledges rows (dropna on `pledge_id`, astype(str),
coercions, derived `year`), with `f` the selected date column. -/
def cleanPledges (f : DateField) (rows : List PledgeRow) : List CleanPledge :=
  rows.filterMap (fun r =>
    r.pledge_id.map (fun i =>
      { pledge_id := i
        pledge_date := coerceD (getD f r)
        contribution_amount := coerceV r.contribution
        year := (coerceD (getD f r)).map (fun d => d.y) }))

/-- Cleaning of the payments rows (dropna on `pledge_id`, astype(str),
coercions; the date column is stringified and re-parsed with `coerce`, so
a null or unparsable value becomes missing). -/
def cleanPays (rows : List PaymentRow) : List CleanPay :=
  rows.filterMap (fun s =>
    s.pledge_id.map (fun i =>
      { pledge_id := i
        date := coerceD s.date
        amount := coerceV s.amount }))

/-- One row of the joined table (`combined_df`). -/
structure CombinedRow where
  pledge_id : Option String
  pledge_date : Option Date
  contribution_amount : Option ℚ
  year : Option Int
  pay_date : Option Date
  amount : Option ℚ
deriving DecidableEq, Repr

/-- A joined row built from a pledge row and (optionally) a payment row. -/
def mkRow (r : CleanPledge) (d : Option Date) (a : Option ℚ) : CombinedRow where
  pledge_id := some r.pledge_id
  pledge_date := r.pledge_date
  contribution_amount := r.contribution_amount
  year := r.year
  pay_date := d
  amount := a

/-- The joined rows one pledge row contributes: one per matching payment,
or a single row with null payment fields when no payment matches. -/
def pledgeRows (qs : List CleanPay) (r : CleanPledge) : List CombinedRow :=
  if (qs.filter (fun s => s.pledge_id == r.pledge_id)).isEmpty then
    [mkRow r none none]
  else
    (qs.filter (fun s => s.pledge_id == r.pledge_id)).map
      (fun s => mkRow r s.date s.amount)

/-- The left outer join of `pd.merge(..., how="left")` on `pledge_id`:
every pledge row yields one joined row per matching payment, or a single
row with null payment fields when unmatched; payments without a matching
pledge contribute nothing.  Left order is preserved, matches appear in
right order, as pandas merge does. -/
def leftJoin (ps : List CleanPledge) (qs : List CleanPay) : List CombinedRow :=
  ps.flatMap (pledgeRows qs)

/-- The body of `load_and_preprocess_data` after the date column has been
selected, in source order: the `.dt` accessor of line 32 (fails when the
selected column holds an unparsable value), the required-column check of
lines 35-38, the payments column accesses of lines 46/51/55, the merge,
and the post-merge `amount` check of lines 75-76 (the column survives only
when the pledge side has no colliding `amount` column). -/
def loadWith (p : PledgesDf) (q : PaymentsDf) (f : DateField) :
    Except LoadErr (List CombinedRow) :=
  if p.rows.any (fun r => getD f r == .dbad) then .error .dtAccessorError
  else if !p.hasId then .error (.missingColumn "pledge_id")
  else if !p.hasContrib then .error (.missingColumn "contribution_amount")
  else if !q.hasDate then .error (.missingColumn "date")
  else if !q.hasAmount then .error (.missingColumn "amount")
  else if !q.hasId then .error (.missingColumn "payments pledge_id")
  else if p.hasAmount then .error .joinIntegrityError
  else .ok (leftJoin (cleanPledges f p.rows) (cleanPays q.rows))

/-- The embedding of `load_and_preprocess_data` (src/data_processing.py
lines 9-84). -/
def load (p : PledgesDf) (q : PaymentsDf) : Except LoadErr (List CombinedRow) :=
  match selDateField p with
  | none => .error .schemaError
  | some f => loadWith p q f

/-- Keys of a grouped frame, in pandas `groupby` order: distinct keys
sorted ascending (null keys are already gone, `groupby` dropping them). -/
def sortedKeys (ks : List Int) : List Int :=
  List.insertionSort (fun a b => a ≤ b) ks.dedup

/-- The shape of a pandas `groupby(key).agg(...)`: null keys dropped, one
output element per distinct key in ascending key order, each computed by
`agg` from the rows carrying that key. -/
def groupBy (key : α → Option Int) (agg : Int → List α → β) (l : List α) :
    List β :=
  (sortedKeys (l.filterMap key)).map
    (fun k => agg k (l.filter (fun a => key a == some k)))

/-- Sum of the `contribution_amount` column over rows, with pandas `sum`
semantics: missing values are skipped and an empty or all-missing group
sums to 0. -/
def csum (rs : List CombinedRow) : ℚ :=
  (rs.map (fun r => r.contribution_amount.getD 0)).sum

/-- Sum of the payment `amount` column over rows, pandas `sum` semantics. -/
def asum (rs : List CombinedRow) : ℚ :=
  (rs.map (fun r => r.amount.getD 0)).sum

/-- The integer encoding of a month bucket (`dt.to_period("M")`): twelve
months per year, so ascending key order is chronological order. -/
def monthKey (d : Date) : Int :=
  12 * d.y + d.m.val

/-- One bucket of the monthly fulfillment series of
`create_visualizations` (lines 103-108): month, summed contribution,
summed amount, and `rate = amount / contribution * 100` computed with NO
zero guard — float division by a zero denominator gives NaN or ±infinity,
modelled as `none`. -/
structure FRow where
  month : Int
  contribution : ℚ
  amount : ℚ
  rate : Option ℚ
deriving DecidableEq, Repr

/-- The monthly pledge trend of `create_visualizations` (line 91): group
by month of `pledge_date`, sum `contribution_amount`. -/
def pledgeTrend (rows : List CombinedRow) : List (Int × ℚ) :=
  groupBy (fun r => r.pledge_date.map monthKey) (fun k m => (k, csum m)) rows

/-- One month bucket of the fulfillment series: sums of both amount
columns and the unguarded quotient of line 108. -/
def fulfillBucket (k : Int) (m : List CombinedRow) : FRow where
  month := k
  contribution := csum m
  amount := asum m
  rate := if csum m = 0 then none else some (asum m / csum m * 100)

/-- The monthly fulfillment series of `create_visualizations`
(lines 103-108). -/
def fulfillmentSeries (rows : List CombinedRow) : List FRow :=
  groupBy (fun r => r.pledge_date.map monthKey) fulfillBucket rows

/-- The in-place update of line 121 of src/data_processing.py:
`df["year"] = df["pledge_date"].dt.year`, overwriting the input table's
`year` column with the year of `pledge_date`. -/
def mutYear (r : CombinedRow) : CombinedRow :=
  { r with year := r.pledge_date.map (fun d => d.y) }

/-- The yearly breakdown of `create_visualizations` (line 122), computed
on the table after the `year` column has been overwritten. -/
def byYear (rows : List CombinedRow) : List (Int × ℚ) :=
  groupBy (fun r => r.year) (fun k m => (k, csum m)) (rows.map mutYear)

/-- The outputs of `create_visualizations`: the data series of the five
figures plus the table as it stands after the call (the function writes
the `year` column of its argument at line 121). -/
structure CVOut where
  pledge_trend : List (Int × ℚ)
  pledge_distribution : List (Option ℚ)
  fulfillment_rate : List FRow
  scatter : List (Option ℚ × Option ℚ × Option String)
  by_year : List (Int × ℚ)
  table : List CombinedRow
deriving DecidableEq, Repr

/-- The embedding of `create_visualizations` (src/data_processing.py
lines 87-135).  The histogram and scatter figures carry the raw column
values; the subplot figure reuses the first data series of four of the
figures and adds no data of its own. -/
def createVisualizations (rows : List CombinedRow) : CVOut where
  pledge_trend := pledgeTrend rows
  pledge_distribution := rows.map (fun r => r.contribution_amount)
  fulfillment_rate := fulfillmentSeries rows
  scatter := rows.map (fun r => (r.contribution_amount, r.amount, r.pledge_id))
  by_year := byYear rows
  table := rows.map mutYear

/-- Rounding half to even (numpy rounding) of a rational to an integer. -/
def roundHalfEven (q : ℚ) : Int :=
  let f := ⌊q⌋
  if q - f < 1 / 2 then f
  else if q - f > 1 / 2 then f + 1
  else if f % 2 = 0 then f else f + 1

/-- Rounding to 2 decimal places, as `Series.round(2)`. -/
def round2 (q : ℚ) : ℚ :=
  (roundHalfEven (q * 100) : ℚ) / 100

/-- One row of the pledge summary table of `update_graphs` (src/app.py
lines 116-129). -/
structure SRow where
  year : Int
  num_pledges : Nat
  total_contribution : ℚ
  average_contribution : Option ℚ
  total_payment : ℚ
  rate : ℚ
deriving DecidableEq, Repr

/-- The yearly pledge summary of `update_graphs` (src/app.py lines
116-128): group by `year`; count of non-null `pledge_id`, sum and mean of
`contribution_amount` (pandas mean of an all-missing group is missing),
sum of `amount`; fulfillment rate 0 when the contribution total is 0 and
`total_payment / total_contribution * 100` otherwise, rounded to two
decimal places.  This builds one summary row. -/
def summarize (k : Int) (m : List CombinedRow) : SRow where
  year := k
  num_pledges := (m.filter (fun r => r.pledge_id.isSome)).length
  total_contribution := csum m
  average_contribution :=
    if (m.filterMap (fun r => r.contribution_amount)).isEmpty then none
    else some ((m.filterMap (fun r => r.contribution_amount)).sum /
      (m.filterMap (fun r => r.contribution_amount)).length)
  total_payment := asum m
  rate := round2 (if csum m = 0 then 0 else asum m / csum m * 100)

/-- The yearly pledge summary table of `update_graphs`: group by `year`
and build one `summarize` row per year. -/
def pledgeSummary (rows : List CombinedRow) : List SRow :=
  groupBy (fun r => r.year) summarize rows

/-- The year filter of `update_graphs` (src/app.py line 109):
`df[df["year"].isin(selected_years)]`; a null year is never a member. -/
def filterYears (S : List Int) (rows : List CombinedRow) : List CombinedRow :=
  rows.filter (fun r =>
    match r.year with
    | some y => S.contains y
    | none => false)

/-- The embedding of `update_graphs` (src/app.py lines 105-136): filter
the joined table by the selected years, recompute the figures on the
filtered table, and build the summary table.  The summary groups the
table as it stands AFTER `create_visualizations` has overwritten its
`year` column (line 121 of src/data_processing.py runs on the filtered
frame before the `groupby` of line 116 of src/app.py). -/
def updateGraphs (rows : List CombinedRow) (S : List Int) :
    CVOut × List SRow :=
  let cv := createVisualizations (filterYears S rows)
  (cv, pledgeSummary cv.table)

/-- The calendar year encoded in a month key. -/
def yearOfKey (k : Int) : Int := k / 12

lemma yearOfKey_monthKey (d : Date) : yearOfKey (monthKey d) = d.y := by
  unfold yearOfKey monthKey
  have hm := d.m.isLt
  omega

lemma dedup_filter {α : Type} [DecidableEq α] (P : α → Bool) (l : List α) :
    (l.filter P).dedup = l.dedup.filter P := by
  induction l with
  | nil => rfl
  | cons a t ih =>
    cases hP : P a with
    | false =>
      rw [show (a :: t).filter P = t.filter P by simp [List.filter_cons, hP]]
      by_cases hm : a ∈ t
      · rw [List.dedup_cons_of_mem hm]; exact ih
      · rw [List.dedup_cons_of_not_mem hm,
          show (a :: t.dedup).filter P = t.dedup.filter P by
            simp [List.filter_cons, hP]]
        exact ih
    | true =>
      rw [show (a :: t).filter P = a :: t.filter P by simp [List.filter_cons, hP]]
      by_cases hm : a ∈ t
      · rw [List.dedup_cons_of_mem (List.mem_filter.mpr ⟨hm, hP⟩),
          List.dedup_cons_of_mem hm]
        exact ih
      · rw [List.dedup_cons_of_not_mem (fun hc => hm (List.mem_filter.mp hc).1),
          List.dedup_cons_of_not_mem hm,
          show (a :: t.dedup).filter P = a :: t.dedup.filter P by
            simp [List.filter_cons, hP],
          ih]

lemma insertionSort_filter (P : Int → Bool) (l : List Int) :
    List.insertionSort (fun a b => a ≤ b) (l.filter P) =
      (List.insertionSort (fun a b => a ≤ b) l).filter P := by
  apply List.eq_of_perm_of_sorted (r := fun a b => a ≤ b)
  · exact (List.perm_insertionSort _ _).trans
      ((List.perm_insertionSort (fun a b => a ≤ b) l).filter P).symm
  · exact List.sorted_insertionSort _ _
  · exact List.Pairwise.filter P
      (List.sorted_insertionSort (fun a b => a ≤ b) l)

lemma sortedKeys_filter (P : Int → Bool) (ks : List Int) :
    sortedKeys (ks.filter P) = (sortedKeys ks).filter P := by
  unfold sortedKeys
  rw [dedup_filter, insertionSort_filter]

lemma filterMap_filter_key {α : Type} (key : α → Option Int) (p : α → Bool)
    (P : Int → Bool) (l : List α)
    (hpk : ∀ a ∈ l, ∀ k, key a = some k → p a = P k) :
    (l.filter p).filterMap key = (l.filterMap key).filter P := by
  induction l with
  | nil => rfl
  | cons a t ih =>
    have ihr := ih (fun x hx k hk => hpk x (List.mem_cons_of_mem _ hx) k hk)
    cases hk : key a with
    | none =>
      cases hp : p a <;>
        simp [List.filter_cons, List.filterMap_cons, hk, hp, ihr]
    | some k =>
      have hpa : p a = P k := hpk a (List.mem_cons_self a t) k hk
      cases hP : P k
      · have hp : p a = false := by rw [hpa, hP]
        simp [List.filter_cons, List.filterMap_cons, hk, hp, hP, ihr]
      · have hp : p a = true := by rw [hpa, hP]
        simp [List.filter_cons, List.filterMap_cons, hk, hp, hP, ihr]

lemma filter_filter_key {α : Type} (key : α → Option Int) (p : α → Bool)
    (P : Int → Bool) (l : List α)
    (hpk : ∀ a ∈ l, ∀ k, key a = some k → p a = P k)
    (k : Int) (hPk : P k = true) :
    (l.filter p).filter (fun a => key a == some k) =
      l.filter (fun a => key a == some k) := by
  rw [List.filter_filter]
  apply List.filter_congr
  intro a ha
  cases hka : (key a == some k) with
  | false => simp
  | true =>
    have hke : key a = some k := by simpa using hka
    have := hpk a ha k hke
    simp [this, hPk]

lemma filter_map_q {β : Type} (f : Int → β) (q : β → Bool) (s : List Int) :
    (s.map f).filter q = (s.filter (fun k => q (f k))).map f := by
  rw [List.filter_map]
  rfl

/-- Grouping commutes with row filtering when the filter is a function of
the group key: aggregating the filtered rows equals aggregating all rows
and discarding the groups whose key fails the key predicate. -/
theorem groupBy_filter_comm {α β : Type} (key : α → Option Int)
    (agg : Int → List α → β) (p : α → Bool) (P : Int → Bool) (q : β → Bool)
    (l : List α)
    (hpk : ∀ a ∈ l, ∀ k, key a = some k → p a = P k)
    (hq : ∀ k m, q (agg k m) = P k) :
    groupBy key agg (l.filter p) = (groupBy key agg l).filter q := by
  unfold groupBy
  rw [filterMap_filter_key key p P l hpk, sortedKeys_filter]
  have h1 : ((sortedKeys (l.filterMap key)).map
        (fun k => agg k (l.filter (fun a => key a == some k)))).filter q =
      ((sortedKeys (l.filterMap key)).filter P).map
        (fun k => agg k (l.filter (fun a => key a == some k))) := by
    rw [filter_map_q]
    congr 1
    exact List.filter_congr (fun k _ => hq k _)
  rw [h1]
  apply List.map_congr_left
  intro k hk
  congr 1
  exact filter_filter_key key p P l hpk k (List.mem_filter.mp hk).2

lemma selDateField_eq_none (p : PledgesDf) :
    selDateField p = none ↔ (p.hasCreated || p.hasStarts || p.hasEnded) = false := by
  unfold selDateField
  split_ifs <;> simp_all

lemma loadWith_ne_schemaError (p : PledgesDf) (q : PaymentsDf) (f : DateField) :
    loadWith p q f ≠ .error .schemaError := by
  unfold loadWith
  split_ifs <;> simp

lemma loadWith_ok_elim {p : PledgesDf} {q : PaymentsDf} {f : DateField}
    {out : List CombinedRow} (h : loadWith p q f = .ok out) :
    out = leftJoin (cleanPledges f p.rows) (cleanPays q.rows) := by
  unfold loadWith at h
  split_ifs at h
  simp_all

lemma load_ok_elim {p : PledgesDf} {q : PaymentsDf} {out : List CombinedRow}
    (h : load p q = .ok out) :
    ∃ f, selDateField p = some f ∧
      out = leftJoin (cleanPledges f p.rows) (cleanPays q.rows) := by
  unfold load at h
  cases hsel : selDateField p with
  | none => rw [hsel] at h; exact absurd h (by simp)
  | some f =>
    rw [hsel] at h
    exact ⟨f, rfl, loadWith_ok_elim h⟩

lemma mem_pledgeRows_elim {qs : List CleanPay} {r : CleanPledge}
    {cr : CombinedRow} (h : cr ∈ pledgeRows qs r) :
    ∃ d a, cr = mkRow r d a := by
  unfold pledgeRows at h
  split_ifs at h
  · exact ⟨none, none, List.mem_singleton.mp h⟩
  · obtain ⟨s, _, hs⟩ := List.mem_map.mp h
    exact ⟨s.date, s.amount, hs.symm⟩

lemma pledgeRows_cover (qs : List CleanPay) (r : CleanPledge) :
    ∃ cr ∈ pledgeRows qs r, cr.pledge_id = some r.pledge_id := by
  unfold pledgeRows
  split_ifs with hms
  · exact ⟨mkRow r none none, List.mem_singleton_self _, rfl⟩
  · have hne : qs.filter (fun s => s.pledge_id == r.pledge_id) ≠ [] := by
      simpa [List.isEmpty_iff] using hms
    obtain ⟨s, hs⟩ := List.exists_mem_of_ne_nil _ hne
    exact ⟨mkRow r s.date s.amount, List.mem_map.mpr ⟨s, hs, rfl⟩, rfl⟩

lemma mem_leftJoin_elim {ps : List CleanPledge} {qs : List CleanPay}
    {cr : CombinedRow} (h : cr ∈ leftJoin ps qs) :
    ∃ r ∈ ps, ∃ d a, cr = mkRow r d a := by
  unfold leftJoin at h
  obtain ⟨r, hr, hcr⟩ := List.mem_flatMap.mp h
  obtain ⟨d, a, hda⟩ := mem_pledgeRows_elim hcr
  exact ⟨r, hr, d, a, hda⟩

lemma leftJoin_covers {ps : List CleanPledge} {qs : List CleanPay}
    {r : CleanPledge} (hr : r ∈ ps) :
    ∃ cr ∈ leftJoin ps qs, cr.pledge_id = some r.pledge_id := by
  obtain ⟨cr, hcr, hid⟩ := pledgeRows_cover qs r
  exact ⟨cr, List.mem_flatMap.mpr ⟨r, hr, hcr⟩, hid⟩

lemma mem_cleanPledges_elim {f : DateField} {rows : List PledgeRow}
    {r : CleanPledge} (h : r ∈ cleanPledges f rows) :
    ∃ r0 ∈ rows, ∃ i, r0.pledge_id = some i ∧
      r = { pledge_id := i
            pledge_date := coerceD (getD f r0)
            contribution_amount := coerceV r0.contribution
            year := (coerceD (getD f r0)).map (fun d => d.y) } := by
  unfold cleanPledges at h
  obtain ⟨r0, hr0, hmap⟩ := List.mem_filterMap.mp h
  obtain ⟨i, hi, hr⟩ := Option.map_eq_some'.mp hmap
  exact ⟨r0, hr0, i, hi, hr.symm⟩

lemma mem_cleanPledges_intro (f : DateField) (rows : List PledgeRow)
    {r0 : PledgeRow} (hr0 : r0 ∈ rows) {i : String}
    (hi : r0.pledge_id = some i) :
    ({ pledge_id := i
       pledge_date := coerceD (getD f r0)
       contribution_amount := coerceV r0.contribution
       year := (coerceD (getD f r0)).map (fun d => d.y) } : CleanPledge) ∈
      cleanPledges f rows := by
  unfold cleanPledges
  exact List.mem_filterMap.mpr ⟨r0, hr0, by rw [hi]; rfl⟩

lemma round2_zero : round2 0 = 0 := by
  unfold round2 roundHalfEven
  norm_num

lemma sortedKeys_singleton (k : Int) : sortedKeys [k] = [k] := rfl

lemma summarize_rate_of_zero (k : Int) (m : List CombinedRow)
    (h : (summarize k m).total_contribution = 0) : (summarize k m).rate = 0 := by
  have h0 : csum m = 0 := h
  show round2 (if csum m = 0 then 0 else asum m / csum m * 100) = 0
  rw [if_pos h0]
  exact round2_zero

lemma fulfillBucket_rate_of_zero (k : Int) (m : List CombinedRow)
    (h : (fulfillBucket k m).contribution = 0) :
    (fulfillBucket k m).rate = none := by
  have h0 : csum m = 0 := h
  show (if csum m = 0 then none else some (asum m / csum m * 100)) = none
  rw [if_pos h0]

/-- A joined row whose month bucket has contribution sum 0 but a nonzero
payment sum: the month of January 2023 with a pledged 0 and a paid 40. -/
def c1row : CombinedRow where
  pledge_id := some "p1"
  pledge_date := some (mkDate 2023 0 (by norm_num))
  contribution_amount := some 0
  year := some 2023
  pay_date := none
  amount := some 40

/-- The single month bucket the table of `c1row` produces: January 2023
(key 24276), contribution sum 0, amount sum 40, undefined rate. -/
def c1bucket : FRow where
  month := 24276
  contribution := 0
  amount := 40
  rate := none

/-- C1 counterexample: in the monthly fulfillment series of
`create_visualizations` a bucket with `contribution_amount` sum 0 does NOT
get rate 0: line 108 divides without a zero guard, so the float rate is
NaN or infinite (modelled `none`), never the number 0.  The claim that
both series obey the zero-denominator rule is therefore false. -/
theorem C1_cex :
    (createVisualizations [c1row]).fulfillment_rate = [c1bucket] ∧
    ¬ ∀ b ∈ (createVisualizations [c1row]).fulfillment_rate,
        b.contribution = 0 → b.rate = some 0 := by
  have hs : (createVisualizations [c1row]).fulfillment_rate = [c1bucket] := by
    show fulfillmentSeries [c1row] = _
    norm_num [fulfillmentSeries, groupBy, sortedKeys_singleton, fulfillBucket,
      csum, asum, monthKey, mkDate, c1row, c1bucket, List.filterMap_cons,
      List.filter_cons, beq_iff_eq]
  refine ⟨hs, fun hall => ?_⟩
  have hmem : c1bucket ∈ (createVisualizations [c1row]).fulfillment_rate := by
    rw [hs]
    exact List.mem_singleton_self _
  have hrate := hall _ hmem rfl
  simp [c1bucket] at hrate

/-- C1 (amended): the zero-denominator rule holds in the yearly summary of
`update_graphs` (rate exactly 0, lines 123-126 of src/app.py), while in
the monthly fulfillment series of `create_visualizations` a bucket with
contribution sum 0 yields an undefined rate (NaN or infinite float,
modelled `none`), not 0. -/
theorem C1_zero_denominator (rows : List CombinedRow) :
    (∀ s ∈ pledgeSummary rows, s.total_contribution = 0 → s.rate = 0) ∧
    (∀ b ∈ fulfillmentSeries rows, b.contribution = 0 → b.rate = none) := by
  constructor
  · intro s hs h0
    obtain ⟨k, _, hk⟩ := List.mem_map.mp hs
    subst hk
    exact summarize_rate_of_zero _ _ h0
  · intro b hb h0
    obtain ⟨k, _, hk⟩ := List.mem_map.mp hb
    subst hk
    exact fulfillBucket_rate_of_zero _ _ h0

/-- The yearly summary row the table of `c1row` produces. -/
def c1srow : SRow where
  year := 2023
  num_pledges := 1
  total_contribution := 0
  average_contribution := some 0
  total_payment := 40
  rate := 0

lemma pledgeSummary_c1row : pledgeSummary [c1row] = [c1srow] := by
  norm_num [pledgeSummary, groupBy, sortedKeys_singleton, summarize, csum, asum,
    c1row, c1srow, List.filterMap_cons, List.filter_cons, beq_iff_eq, round2_zero]
  intro h
  simp at h

/-- C1 witness: the zero-denominator year 2023 of the concrete table gets
summary rate exactly 0. -/
theorem C1_zero_denominator_w : c1srow.rate = 0 :=
  (C1_zero_denominator [c1row]).1 c1srow
    (by rw [pledgeSummary_c1row]; exact List.mem_singleton_self _) rfl

/-- A joined row whose stored `year` (1999) disagrees with the year of its
`pledge_date` (2023). -/
def c2row : CombinedRow where
  pledge_id := some "p2"
  pledge_date := some (mkDate 2023 0 (by norm_num))
  contribution_amount := some 5
  year := some 1999
  pay_date := none
  amount := none

/-- C2 counterexample: `create_visualizations` writes its input table
(line 121, `df["year"] = df["pledge_date"].dt.year`), so a table whose
`year` column differs from the derived value comes back changed: the
function is not free of side effects on its input. -/
theorem C2_cex : (createVisualizations [c2row]).table ≠ [c2row] := by
  decide

/-- C2 (amended): `create_visualizations` is deterministic (it is a pure
function of the table in this embedding) and its only effect on the input
table is overwriting the `year` column with the year of `pledge_date`;
on tables already satisfying that relation (every table `load` produces),
the input is left unchanged. -/
theorem C2_table_mutation (rows : List CombinedRow)
    (h : ∀ r ∈ rows, r.year = r.pledge_date.map (fun d => d.y)) :
    (createVisualizations rows).table = rows := by
  show rows.map mutYear = rows
  calc rows.map mutYear
      = rows.map id := by
        apply List.map_congr_left
        intro a ha
        have ha2 := h a ha
        unfold mutYear
        cases a
        simp_all
    _ = rows := List.map_id rows

/-- C2 witness: on a year-consistent one-row table the input table comes
back unchanged. -/
theorem C2_table_mutation_w : (createVisualizations [c1row]).table = [c1row] :=
  C2_table_mutation [c1row] (by decide)

/-- The pledge source of the worked example of the spec: one pledge p1,
2023-01-15, amount 100. -/
def c8p : PledgesDf where
  hasId := true
  hasCreated := true
  hasStarts := false
  hasEnded := false
  hasContrib := true
  hasAmount := false
  rows := [{ pledge_id := some "p1"
             created := .dgood (mkDate 2023 0 (by norm_num))
             starts := .dnull
             ended := .dnull
             contribution := .vgood 100 }]

/-- The payment source of the worked example: one payment on pledge p1,
2023-02-01, amount 40. -/
def c8q : PaymentsDf where
  hasId := true
  hasDate := true
  hasAmount := true
  rows := [{ pledge_id := some "p1"
             date := .dgood (mkDate 2023 1 (by norm_num))
             amount := .vgood 40 }]

/-- The joined row the worked example produces. -/
def c8row : CombinedRow where
  pledge_id := some "p1"
  pledge_date := some (mkDate 2023 0 (by norm_num))
  contribution_amount := some 100
  year := some 2023
  pay_date := some (mkDate 2023 1 (by norm_num))
  amount := some 40

/-- The yearly summary row the worked example produces. -/
def c8srow : SRow where
  year := 2023
  num_pledges := 1
  total_contribution := 100
  average_contribution := some 100
  total_payment := 40
  rate := 40

/-- C8: on the spec's worked example the yearly summary row for 2023 has
count 1, total contribution 100, average 100, total payment 40 and
fulfillment rate 40 after rounding to 2 decimal places. -/
theorem C8_example :
    (load c8p c8q).map (fun rows => (updateGraphs rows [2023]).2) =
      .ok [c8srow] := by
  have hload : load c8p c8q = .ok [c8row] := by decide
  rw [hload]
  show Except.ok ((updateGraphs [c8row] [2023]).2) = Except.ok [c8srow]
  congr 1
  show pledgeSummary
      ((createVisualizations (filterYears [2023] [c8row])).table) = [c8srow]
  have hfil : filterYears [2023] [c8row] = [c8row] := by decide
  rw [hfil]
  show pledgeSummary ([c8row].map mutYear) = [c8srow]
  have hmut : [c8row].map mutYear = [c8row] := by decide
  rw [hmut]
  norm_num [pledgeSummary, groupBy, sortedKeys_singleton, summarize, csum, asum,
    c8row, c8srow, List.filterMap_cons, List.filter_cons, beq_iff_eq, round2,
    roundHalfEven]
  intro h
  simp at h

/-- The empty figure set: every data series empty. -/
def emptyCV : CVOut where
  pledge_trend := []
  pledge_distribution := []
  fulfillment_rate := []
  scatter := []
  by_year := []
  table := []

/-- C10: an empty joined table yields empty aggregates for every output of
`create_visualizations`, and selecting an empty set of years in
`update_graphs` yields empty chart data and an empty summary table; both
computations are total, so no error is raised. -/
theorem C10_empty_aggregates :
    createVisualizations [] = emptyCV ∧
    ∀ rows : List CombinedRow, updateGraphs rows [] = (emptyCV, []) := by
  constructor
  · decide
  · intro rows
    have hf : filterYears [] rows = [] := by
      unfold filterYears
      rw [List.filter_eq_nil_iff]
      intro r _
      cases hr : r.year <;> simp
    unfold updateGraphs
    rw [hf]
    decide

/-- A pledge source with one dated and one date-less record. -/
def c3p : PledgesDf where
  hasId := true
  hasCreated := true
  hasStarts := false
  hasEnded := false
  hasContrib := true
  hasAmount := false
  rows := [{ pledge_id := some "a"
             created := .dgood (mkDate 2023 0 (by norm_num))
             starts := .dnull
             ended := .dnull
             contribution := .vgood 10 },
           { pledge_id := some "b"
             created := .dnull
             starts := .dnull
             ended := .dnull
             contribution := .vgood 20 }]

/-- A valid payments source with no rows. -/
def c3q : PaymentsDf where
  hasId := true
  hasDate := true
  hasAmount := true
  rows := []

/-- The joined table `c3p` and `c3q` produce. -/
def c3out : List CombinedRow :=
  leftJoin (cleanPledges .created c3p.rows) (cleanPays c3q.rows)

/-- C3 counterexample: the load succeeds on a pledge source whose second
record has a null creation date, and the corresponding joined row has a
null `year` (the `year` column is `pledge_date.dt.year`, NaN on NaT), so
not every joined row has a non-null year. -/
theorem C3_cex :
    load c3p c3q = .ok c3out ∧ ¬ ∀ r ∈ c3out, r.year ≠ none := by
  decide

/-- C3 (amended): every row of a successfully joined table has a non-null
`pledge_id` (rows with a null id are dropped before the join), and its
`year` is exactly the year of its `pledge_date` — hence non-null exactly
when `pledge_date` is non-null, which valid inputs need not guarantee. -/
theorem C3_joined_rows (p : PledgesDf) (q : PaymentsDf)
    (out : List CombinedRow) (h : load p q = .ok out) :
    ∀ r ∈ out, r.pledge_id.isSome = true ∧
      r.year = r.pledge_date.map (fun d => d.y) := by
  obtain ⟨f, _, rfl⟩ := load_ok_elim h
  intro cr hcr
  obtain ⟨r, hr, d, a, rfl⟩ := mem_leftJoin_elim hcr
  obtain ⟨r0, _, i, _, rfl⟩ := mem_cleanPledges_elim hr
  exact ⟨rfl, rfl⟩

/-- C3 witness: the joined row of the worked example has a non-null id and
its year is the year of its pledge date. -/
theorem C3_joined_rows_w :
    c8row.pledge_id.isSome = true ∧
      c8row.year = c8row.pledge_date.map (fun d => d.y) :=
  C3_joined_rows c8p c8q [c8row] (by decide) c8row (List.mem_singleton_self _)

/-- A pledge JSON source whose first record has a creation date and whose
second record lacks all three recognized date fields. -/
def c4src : List PledgeJson :=
  [{ pledge_id := some (some "p1")
     created := some (.dgood (mkDate 2023 0 (by norm_num)))
     starts := none
     ended := none
     contribution := some (.vgood 100)
     amount_key := false },
   { pledge_id := some (some "p2")
     created := none
     starts := none
     ended := none
     contribution := some (.vgood 50)
     amount_key := false }]

/-- C4 counterexample: an input CONTAINING a record that lacks all three
recognized date fields does not make the load fail: the check of lines
19-26 looks at column presence, the first record makes the creation-date
column exist, and the load returns a joined table (the date-less record
gets a null date). -/
theorem C4_cex :
    (∃ r ∈ c4src, r.created = none ∧ r.starts = none ∧ r.ended = none) ∧
    load (readPledges c4src) c3q ≠ .error .schemaError ∧
    load (readPledges c4src) c3q =
      .ok (leftJoin (cleanPledges .created (readPledges c4src).rows)
        (cleanPays c3q.rows)) := by
  decide

lemma selDateField_readPledges_none (src : List PledgeJson) :
    selDateField (readPledges src) = none ↔
      src.all (fun r =>
        r.created.isNone && r.starts.isNone && r.ended.isNone) = true := by
  rw [selDateField_eq_none]
  unfold readPledges
  simp only [Bool.or_eq_false_iff, List.any_eq_false, List.all_eq_true,
    Bool.and_eq_true, Option.isNone_iff_eq_none, Option.not_isSome_iff_eq_none]
  constructor
  · rintro ⟨⟨h1, h2⟩, h3⟩ r hr
    exact ⟨⟨h1 r hr, h2 r hr⟩, h3 r hr⟩
  · intro h
    exact ⟨⟨fun r hr => (h r hr).1.1, fun r hr => (h r hr).1.2⟩,
      fun r hr => (h r hr).2⟩

/-- C4 (amended): the load fails with the schema error exactly when NO
record of the pledge source carries any of the three recognized date
fields (so none of the three columns exists); a single record lacking all
three among records that have one does not abort the load. -/
theorem C4_schema_error (src : List PledgeJson) (q : PaymentsDf) :
    load (readPledges src) q = .error .schemaError ↔
      src.all (fun r =>
        r.created.isNone && r.starts.isNone && r.ended.isNone) = true := by
  rw [← selDateField_readPledges_none]
  unfold load
  cases hsel : selDateField (readPledges src) with
  | none => simp
  | some f => simp [loadWith_ne_schemaError]

/-- A pledge JSON source whose single record has no date field at all. -/
def c4bad : List PledgeJson :=
  [{ pledge_id := none
     created := none
     starts := none
     ended := none
     contribution := none
     amount_key := false }]

/-- C4 witness: when every record lacks the three date fields the load
fails with the schema error. -/
theorem C4_schema_error_w : load (readPledges c4bad) c3q = .error .schemaError :=
  (C4_schema_error c4bad c3q).mpr (by decide)

/-- C5: left-join completeness.  When the load succeeds, the set of
distinct `pledge_id` values of the joined table equals the set of distinct
ids of the cleaned pledge input; every cleaned pledge row appears at least
once; and every joined row carries the id of some cleaned pledge row, so
payments without a matching pledge contribute no row. -/
theorem C5_left_join (p : PledgesDf) (q : PaymentsDf)
    (out : List CombinedRow) (f : DateField)
    (hf : selDateField p = some f) (h : load p q = .ok out) :
    (out.map (fun cr => cr.pledge_id)).toFinset =
      ((cleanPledges f p.rows).map (fun r => some r.pledge_id)).toFinset ∧
    (∀ r ∈ cleanPledges f p.rows, ∃ cr ∈ out,
      cr.pledge_id = some r.pledge_id) ∧
    (∀ cr ∈ out, ∃ r ∈ cleanPledges f p.rows,
      cr.pledge_id = some r.pledge_id) := by
  obtain ⟨g, hg, hout⟩ := load_ok_elim h
  obtain rfl : f = g := by
    have := hf.symm.trans hg
    exact Option.some.inj this
  subst hout
  refine ⟨?_, ?_, ?_⟩
  · apply Finset.ext
    intro a
    simp only [List.mem_toFinset, List.mem_map]
    constructor
    · rintro ⟨cr, hcr, rfl⟩
      obtain ⟨r, hr, d, b, rfl⟩ := mem_leftJoin_elim hcr
      exact ⟨r, hr, rfl⟩
    · rintro ⟨r, hr, rfl⟩
      obtain ⟨cr, hcr, hid⟩ := leftJoin_covers hr
      exact ⟨cr, hcr, hid⟩
  · intro r hr
    exact leftJoin_covers hr
  · intro cr hcr
    obtain ⟨r, hr, d, b, rfl⟩ := mem_leftJoin_elim hcr
    exact ⟨r, hr, rfl⟩

/-- C5 witness: on the worked example the distinct ids of the joined table
equal the distinct ids of the cleaned pledge input. -/
theorem C5_left_join_w :
    ([c8row].map (fun cr => cr.pledge_id)).toFinset =
      ((cleanPledges .created c8p.rows).map
        (fun r => some r.pledge_id)).toFinset :=
  (C5_left_join c8p c8q [c8row] .created (by decide) (by decide)).1

/-- C6: the load fails with the schema error exactly when none of the
three recognized date columns exists, and the date column is selected by
the priority creation, else start, else end (the behaviour of the load is
that of `loadWith` applied to the prioritized field). -/
theorem C6_date_priority (p : PledgesDf) (q : PaymentsDf) :
    (load p q = .error .schemaError ↔
      (p.hasCreated || p.hasStarts || p.hasEnded) = false) ∧
    (p.hasCreated = true → load p q = loadWith p q .created) ∧
    (p.hasCreated = false → p.hasStarts = true →
      load p q = loadWith p q .starts) ∧
    (p.hasCreated = false → p.hasStarts = false → p.hasEnded = true →
      load p q = loadWith p q .ended) := by
  refine ⟨?_, ?_, ?_, ?_⟩
  · rw [← selDateField_eq_none]
    unfold load
    cases hsel : selDateField p with
    | none => simp
    | some f => simp [loadWith_ne_schemaError]
  · intro h1
    unfold load selDateField
    rw [h1]
    simp
  · intro h1 h2
    unfold load selDateField
    rw [h1, h2]
    simp
  · intro h1 h2 h3
    unfold load selDateField
    rw [h1, h2, h3]
    simp

/-- A pledge source with only a start-date column. -/
def c6p : PledgesDf where
  hasId := true
  hasCreated := false
  hasStarts := true
  hasEnded := false
  hasContrib := true
  hasAmount := false
  rows := []

/-- C6 witness: with no creation-date column and a start-date column, the
load selects the start-date field. -/
theorem C6_date_priority_w : load c6p c3q = loadWith c6p c3q .starts :=
  (C6_date_priority c6p c3q).2.2.1 rfl rfl

/-- C7: aggregation commutes with year filtering on tables whose `year`
column agrees with the year of `pledge_date` (true of every joined table):
filtering to the years of S then aggregating the monthly trend, the
monthly fulfillment series or the yearly summary equals aggregating the
full table and discarding buckets whose year lies outside S. -/
theorem C7_filter_comm (rows : List CombinedRow) (S : List Int)
    (h : ∀ r ∈ rows, r.year = r.pledge_date.map (fun d => d.y)) :
    pledgeTrend (filterYears S rows) =
      (pledgeTrend rows).filter (fun kb => S.contains (yearOfKey kb.1)) ∧
    fulfillmentSeries (filterYears S rows) =
      (fulfillmentSeries rows).filter
        (fun b => S.contains (yearOfKey b.month)) ∧
    pledgeSummary (filterYears S rows) =
      (pledgeSummary rows).filter (fun s => S.contains s.year) := by
  have hpk : ∀ r ∈ rows, ∀ k, r.pledge_date.map monthKey = some k →
      (fun r : CombinedRow =>
        match r.year with
        | some y => S.contains y
        | none => false) r = S.contains (yearOfKey k) := by
    intro r hr k hk
    obtain ⟨d, hd, rfl⟩ := Option.map_eq_some'.mp hk
    rw [yearOfKey_monthKey]
    have hy := h r hr
    rw [hd] at hy
    simp [hy]
  have hpk2 : ∀ r ∈ rows, ∀ k, r.year = some k →
      (fun r : CombinedRow =>
        match r.year with
        | some y => S.contains y
        | none => false) r = S.contains k := by
    intro r _ k hk
    simp [hk]
  unfold pledgeTrend fulfillmentSeries pledgeSummary filterYears
  exact ⟨groupBy_filter_comm _ _ _ _ _ rows hpk (fun k m => rfl),
    groupBy_filter_comm _ _ _ _ _ rows hpk (fun k m => rfl),
    groupBy_filter_comm _ _ _ _ _ rows hpk2 (fun k m => rfl)⟩

/-- A joined row of June 2021 with a year column matching its date. -/
def c7row : CombinedRow where
  pledge_id := some "p3"
  pledge_date := some (mkDate 2021 5 (by norm_num))
  contribution_amount := some 7
  year := some 2021
  pay_date := none
  amount := none

/-- C7 witness: the commutation instantiated on a concrete two-year table
filtered to 2023. -/
theorem C7_filter_comm_w :
    pledgeTrend (filterYears [2023] [c8row, c7row]) =
      (pledgeTrend [c8row, c7row]).filter
        (fun kb => [2023].contains (yearOfKey kb.1)) ∧
    fulfillmentSeries (filterYears [2023] [c8row, c7row]) =
      (fulfillmentSeries [c8row, c7row]).filter
        (fun b => [2023].contains (yearOfKey b.month)) ∧
    pledgeSummary (filterYears [2023] [c8row, c7row]) =
      (pledgeSummary [c8row, c7row]).filter
        (fun s => [2023].contains s.year) :=
  C7_filter_comm [c8row, c7row] [2023] (by decide)

/-- A pledge source whose single record has an unparsable creation date. -/
def c9p : PledgesDf where
  hasId := true
  hasCreated := true
  hasStarts := false
  hasEnded := false
  hasContrib := true
  hasAmount := false
  rows := [{ pledge_id := some "x"
             created := .dbad
             starts := .dnull
             ended := .dnull
             contribution := .vgood 10 }]

/-- C9 counterexample: a pledge date value that fails coercion does NOT
become a per-cell missing marker: an unparsable value keeps the column
from being datetimelike, so line 32 (`.dt.year`, which runs BEFORE the
coercion of line 43) raises and the whole load aborts. -/
theorem C9_cex : load c9p c3q = .error .dtAccessorError := by
  decide

/-- C9 (amended): payment dates and both amount columns are coerced
per-cell — any of their values may be null or unparsable without aborting
the load or dropping a row, and a pledge row is dropped only for a null
`pledge_id` — but the pledge DATE column must be free of unparsable
values, or the load aborts (see the counterexample). -/
theorem C9_coercion_tolerance (p : PledgesDf) (q : PaymentsDf)
    (f : DateField) (hf : selDateField p = some f)
    (hdt : ∀ r ∈ p.rows, getD f r ≠ .dbad)
    (hid : p.hasId = true) (hc : p.hasContrib = true)
    (hqd : q.hasDate = true) (hqa : q.hasAmount = true)
    (hqi : q.hasId = true) (hcol : p.hasAmount = false) :
    load p q = .ok (leftJoin (cleanPledges f p.rows) (cleanPays q.rows)) ∧
    ∀ r ∈ p.rows, r.pledge_id.isSome = true →
      ∃ cr ∈ leftJoin (cleanPledges f p.rows) (cleanPays q.rows),
        cr.pledge_id = r.pledge_id := by
  have hany : (p.rows.any (fun r => getD f r == .dbad)) = false := by
    rw [List.any_eq_false]
    intro r hr
    simpa using hdt r hr
  refine ⟨?_, ?_⟩
  · unfold load
    rw [hf]
    simp [loadWith, hany, hid, hc, hqd, hqa, hqi, hcol]
  · intro r hr hrid
    obtain ⟨i, hi⟩ := Option.isSome_iff_exists.mp hrid
    obtain ⟨cr, hcr, hcrid⟩ := leftJoin_covers
      (mem_cleanPledges_intro f p.rows hr hi)
    exact ⟨cr, hcr, by rw [hcrid, hi]⟩

/-- A pledge source whose record has a null date and an unparsable
contribution amount. -/
def c9wp : PledgesDf where
  hasId := true
  hasCreated := true
  hasStarts := false
  hasEnded := false
  hasContrib := true
  hasAmount := false
  rows := [{ pledge_id := some "w"
             created := .dnull
             starts := .dnull
             ended := .dnull
             contribution := .vbad }]

/-- A payments source whose record has an unparsable date and amount. -/
def c9wq : PaymentsDf where
  hasId := true
  hasDate := true
  hasAmount := true
  rows := [{ pledge_id := some "w"
             date := .dbad
             amount := .vbad }]

/-- C9 witness: with every amount and the payment date unparsable but the
pledge date merely null, the load still succeeds. -/
theorem C9_coercion_tolerance_w :
    load c9wp c9wq =
      .ok (leftJoin (cleanPledges .created c9wp.rows) (cleanPays c9wq.rows)) :=
  (C9_coercion_tolerance c9wp c9wq .created (by decide) (by decide) rfl rfl
    rfl rfl rfl rfl).1

end PledgePulse
